import Mathlib

/-!
Formal model of the Gilts-in-Issue spreadsheet-to-CSV reformatter.

The program under study is `format_gilts_csv` in `format_gilts_csv.py`, with a
near-duplicate variant in `download_and_format_gilts.py` (modelled in
namespace `DF` below).  The source reads an xlrd sheet cell by cell, locates a
header row, classifies the remaining rows, and writes a CSV file.

Modelling decisions, each tied to the source:
* An xlrd cell value is used by the source in exactly two ways: through
  `str(value).strip()` and through Python truthiness (`not sheet.cell_value(i, 1)`).
  A `Cell` therefore carries its `str()` rendering and its Python `bool()`.
  An empty xlrd cell reads as `""`, which is falsy and renders as the empty
  string.
* `sheet.cell_value(i, j)` raises `IndexError` when `i ≥ nrows`.  The only
  place the source can perform such an access is the fixed read of row index 5
  inside the CSV-writing block; the model makes that branch explicit.  All
  other accesses are guarded by loop bounds (the header scan ranges over
  `min(15, nrows)` rows; the column index `1` access in the section scan is
  only reachable once a header row containing two distinct tokens was found,
  which forces `ncols ≥ 2`).
* Python string operations (`strip`, `split`, substring containment) are
  modelled by structurally recursive functions over the character list
  (`pyStrip`, `pySplit`, `containsSeq`), so every definition evaluates inside
  the kernel on concrete inputs.
* The written CSV file is modelled at the field level: a list of rows, each a
  list of field strings, in the order the `csv.writer` received them.  The
  surrounding I/O (directory creation, input-existence check, workbook open,
  output open) is modelled by explicit success flags in `Env`, and the
  `datetime.now()` fallback by an explicit `today` parameter.
-/

/-- Python whitespace, the character class `str.strip()` removes (restricted
to the ASCII range; the source's spreadsheets are ASCII-labelled). -/
def pyIsSpace (c : Char) : Bool :=
  c == ' ' || c == '\t' || c == '\n' || c == '\r' || c == '\x0b' || c == '\x0c'

/-- Python `str.strip()`: drop leading and trailing whitespace.  (Implemented
structurally over the character list so that it evaluates by `decide`.) -/
def pyStrip (s : String) : String :=
  ⟨((s.data.dropWhile pyIsSpace).reverse.dropWhile pyIsSpace).reverse⟩

/-- Does the second list start with the first? -/
def listStartsWith : List Char → List Char → Bool
  | [], _ => true
  | _ :: _, [] => false
  | a :: as, b :: bs => a == b && listStartsWith as bs

/-- Does `needle` occur as a contiguous subsequence of the second list?
Models Python's substring test `needle in hay`. -/
def containsSeq (needle : List Char) : List Char → Bool
  | [] => listStartsWith needle []
  | c :: cs => listStartsWith needle (c :: cs) || containsSeq needle cs

/-- Python `s.split(sep)` for a one-character separator: never empty, keeps
empty pieces (`''.split('_') == ['']`). -/
def splitOnChar (sep : Char) : List Char → List (List Char)
  | [] => [[]]
  | c :: cs =>
    match splitOnChar sep cs with
    | [] => [[c]]
    | h :: t => if c == sep then [] :: h :: t else (c :: h) :: t

/-- Python `s.split(sep)` on strings. -/
def pySplit (sep : Char) (s : String) : List String :=
  (splitOnChar sep s.data).map String.mk

/-- An xlrd cell value as the source observes it: its Python `str()` rendering
and its Python truthiness.  (`str(v).strip()` and `not v` are the only two
operations the source ever applies to a raw cell value.) -/
structure Cell where
  toStr : String
  truthy : Bool
deriving DecidableEq, Repr

/-- A text cell: truthy exactly when the string is nonempty, as in Python. -/
def Cell.ofString (s : String) : Cell := ⟨s, s ≠ ""⟩

/-- An empty xlrd cell: `cell_value` returns `""`, which is falsy. -/
def Cell.blank : Cell := ⟨"", false⟩

/-- The first sheet of the workbook: dimensions plus cell lookup.
`cell i j` models `sheet.cell_value(i, j)` for in-range indices; out-of-range
row accesses (which raise `IndexError` in xlrd) are modelled explicitly at the
one call site where they can occur. -/
structure Sheet where
  nrows : Nat
  ncols : Nat
  cell : Nat → Nat → Cell

/-- `str(sheet.cell_value(i, j)).strip()`. -/
def strCell (s : Sheet) (i j : Nat) : String := pyStrip ((s.cell i j).toStr)

/-- `[str(sheet.cell_value(i, j)).strip() for j in range(sheet.ncols)]`. -/
def trimRow (s : Sheet) (i : Nat) : List String :=
  (List.range s.ncols).map (strCell s i)

/-- `'ISIN Code' in row_values and 'Redemption Date' in row_values`
(list membership, i.e. exact equality of trimmed strings). -/
def rowHasHeaderTokens (s : Sheet) (i : Nat) : Bool :=
  (trimRow s i).contains "ISIN Code" && (trimRow s i).contains "Redemption Date"

/-- The header scan: `for i in range(min(15, sheet.nrows)): ... break`, i.e.
the first index in `0 .. min(15, nrows) - 1` whose trimmed row contains both
tokens. -/
def findHeaderRow (s : Sheet) : Option Nat :=
  (List.range (min 15 s.nrows)).find? (rowHasHeaderTokens s)

/-- The group-label strings `['Ultra-Short', 'Short', 'Medium', 'Long']`. -/
def groupLabels : List String := ["Ultra-Short", "Short", "Medium", "Long"]

/-- Python substring containment `'Index-linked' in cv`. -/
def hasIndexLinked (cv : String) : Bool :=
  containsSeq "Index-linked".data cv.data

/-- The section-header scan over `range(header_row_idx + 1, sheet.nrows)`:
group labels are skipped by `continue` first; then a row is recorded when
`(cell_value and not sheet.cell_value(i, 1) and i > header_row_idx + 1) or
('Index-linked' in cell_value and i > header_row_idx + 1)`.  Note the first
conjunct tests the trimmed first cell, while `sheet.cell_value(i, 1)` is the
raw cell's truthiness. -/
def sectionHeaders (s : Sheet) (hdr : Nat) : List Nat :=
  (List.range' (hdr + 1) (s.nrows - (hdr + 1))).filter (fun i =>
    let cv := strCell s i 0
    !(groupLabels.contains cv) &&
      ((cv != "" && !(s.cell i 1).truthy && decide (hdr + 1 < i)) ||
        (hasIndexLinked cv && decide (hdr + 1 < i))))

/-- The data-loop filter: a row is written unless
`not any(row_values)` (all trimmed cells empty) or
`row_values[0] in ['Ultra-Short', 'Short', 'Medium', 'Long']`. -/
def keepRow (s : Sheet) (i : Nat) : Bool :=
  (trimRow s i).any (fun v => v != "") &&
    !(groupLabels.contains ((trimRow s i).headD ""))

/-- Indices of the rows the data loop `for i in range(header_row_idx + 1,
sheet.nrows)` actually writes. -/
def dataIndices (s : Sheet) (hdr : Nat) : List Nat :=
  (List.range' (hdr + 1) (s.nrows - (hdr + 1))).filter (keepRow s)

/-- The full sequence of rows handed to `csv.writer` on the success path:
input row 0 trimmed, input row 5 trimmed, the located header row trimmed,
then every kept data row in ascending original order. -/
def outputRows (s : Sheet) (hdr : Nat) : List (List String) :=
  trimRow s 0 :: trimRow s 5 :: trimRow s hdr ::
    (dataIndices s hdr).map (trimRow s)

/-! ### Output-filename derivation

The source derives the CSV filename from the input filename:
`date_str = filename.split('_')[-1].split('.')[0]`, then
`datetime.strptime(date_str, '%d-%m-%Y')`; on `ValueError`/`IndexError` it
falls back to `datetime.now()`.  Either way the date is re-rendered with
`strftime('%Y%m%d')`. -/

/-- A calendar date as `datetime` holds it. -/
structure SimpleDate where
  year : Nat
  month : Nat
  day : Nat
deriving DecidableEq, Repr

/-- Gregorian leap-year rule, as `datetime` validates day-of-month. -/
def isLeapYear (y : Nat) : Bool :=
  (y % 4 == 0 && y % 100 != 0) || y % 400 == 0

/-- Days in a month, used by `datetime`'s day validation. -/
def daysInMonth (y m : Nat) : Nat :=
  if m == 2 then (if isLeapYear y then 29 else 28)
  else if m == 4 || m == 6 || m == 9 || m == 11 then 30
  else 31

/-- ASCII digit test (as `strptime` consumes on ASCII input). -/
def pyIsDigit (c : Char) : Bool := '0' ≤ c && c ≤ '9'

/-- The numeric value of a digit string. -/
def digitsVal (cs : List Char) : Nat :=
  cs.foldl (fun acc c => acc * 10 + (c.toNat - '0'.toNat)) 0

/-- A digits-only field of exact width bounds: CPython's `strptime` matches
`%m` as one or two digits (`1[0-2]|0[1-9]|[1-9]`) and `%Y` as exactly four
digits (`\d\d\d\d`) — a 2-digit year such as `"24"` is a `ValueError`, not a
parse.  (Values the digit classes structurally exclude, such as month 13 or
day 32, are equally rejected by the range validation below, so matching on
width plus range gives the same accept set.) -/
def numField (minWidth maxWidth : Nat) (t : String) : Option Nat :=
  if minWidth ≤ t.length && t.length ≤ maxWidth && t.data.all pyIsDigit then
    some (digitsVal t.data)
  else none

/-- CPython's `%d` field: one or two digits, or the ANSI-C padded form — a
space followed by one nonzero digit (`3[01]|[12]\d|0[1-9]|[1-9]| [1-9]`). -/
def dayField (t : String) : Option Nat :=
  match t.data with
  | [' ', c] =>
    if '1' ≤ c && c ≤ '9' then some (c.toNat - '0'.toNat) else none
  | _ => numField 1 2 t

/-- `datetime.strptime(date_str, '%d-%m-%Y')`: day, dash, month, dash, year,
with the whole string consumed and the resulting date validated
(month `1..12`, day `1..` days-in-month, year within `datetime`'s range). -/
def parseDdMmYyyy (t : String) : Option SimpleDate :=
  match pySplit '-' t with
  | [d, m, y] =>
    match dayField d, numField 1 2 m, numField 4 4 y with
    | some dv, some mv, some yv =>
      if 1 ≤ yv && 1 ≤ mv && mv ≤ 12 && 1 ≤ dv && dv ≤ daysInMonth yv mv then
        some ⟨yv, mv, dv⟩
      else none
    | _, _, _ => none
  | _ => none

/-- Zero-pad to 2 digits, as `strftime('%m')`/`%d` render. -/
def pad2 (n : Nat) : String :=
  if n < 10 then "0" ++ toString n else toString n

/-- Zero-pad to 4 digits, as `strftime('%Y')` renders. -/
def pad4 (n : Nat) : String :=
  if n < 10 then "000" ++ toString n
  else if n < 100 then "00" ++ toString n
  else if n < 1000 then "0" ++ toString n
  else toString n

/-- `date_obj.strftime('%Y%m%d')`. -/
def fmtYyyymmdd (d : SimpleDate) : String :=
  pad4 d.year ++ pad2 d.month ++ pad2 d.day

/-- `filename.split('_')[-1].split('.')[0]` (Python `split` never yields an
empty list, so the defaults below are unreachable). -/
def datePart (filename : String) : String :=
  (pySplit '.' ((pySplit '_' filename).getLastD "")).headD ""

/-- `csv_filename = f"gilts_in_issue_X.csv"` where X is the parsed filename
date, or `today` when parsing fails. -/
def csvFilename (filename : String) (today : SimpleDate) : String :=
  "gilts_in_issue_" ++
    (match parseDdMmYyyy (datePart filename) with
      | some d => fmtYyyymmdd d
      | none => fmtYyyymmdd today) ++ ".csv"

/-! ### The full conversion attempt

`runFormatGiltsCsv` models one call `format_gilts_csv(excel_file, output_dir)`
with an explicit input path (the `excel_file is None` most-recent-download
discovery branch is caller-side glue outside this model).  The surrounding
I/O operations are modelled by success flags; `os.makedirs` runs BEFORE the
`try:` block, so its failure is an uncaught exception, while every later
failure is caught by `except Exception` and turned into a `None` return. -/

/-- Which error message the source prints before returning `None`. -/
inductive ConvErr where
  | fileNotFound
  | unreadableWorkbook
  | headerNotFound
  | writeOpenFailed
  | rowOutOfRange
  | ioErrorOnWrite
deriving DecidableEq, Repr

/-- The human-readable message the source prints for each failure, up to the
interpolated path/exception text: `"Error: File not found at {path}"` (line
52), `"Error: Could not find header row in Excel file"` (line 91), and
`"Error converting file: {e}"` (line 146) for every exception the `except`
catches — unreadable workbook, unwritable output file, the out-of-range
row-5 read, and an I/O error during writing. -/
def errMessage : ConvErr → String
  | .fileNotFound => "Error: File not found at "
  | .unreadableWorkbook => "Error converting file: "
  | .headerNotFound => "Error: Could not find header row in Excel file"
  | .writeOpenFailed => "Error converting file: "
  | .rowOutOfRange => "Error converting file: "
  | .ioErrorOnWrite => "Error converting file: "

/-- Outcome of one call, as the caller observes it: an uncaught exception,
a `None` return (with the error message printed), or the CSV path. -/
inductive PyResult where
  | raised
  | returnedNone (err : ConvErr)
  | returnedPath (path : String)
deriving DecidableEq, Repr

/-- One call's environment: the input sheet and filename, the success of each
I/O operation the source performs, and the clock for the filename fallback.
`writeLimit` models I/O failure during writing: `some k` means the
`(k+1)`-th `writerow` call raises (calls `1..k` succeed and their rows are
flushed when the `with` block closes the file); `none` means every write
succeeds. -/
structure Env where
  sheet : Sheet
  filename : String
  outputDir : String
  today : SimpleDate
  makedirsOk : Bool
  inputExists : Bool
  workbookOk : Bool
  openWriteOk : Bool
  writeLimit : Option Nat

/-- `os.path.join(output_dir, csv_filename)`. -/
def csvPath (env : Env) : String :=
  env.outputDir ++ "/" ++ csvFilename env.filename env.today

/-- The `with open(csv_path, 'w')` block after a header row was found and the
open succeeded.  `writerow` calls issue in order: the title row (input row 0,
in range whenever a header was found), then — after the fixed read of input
row index 5, which raises `IndexError` when `nrows ≤ 5` — the totals row, the
header row, and each kept data row.  Each failure inside the block (the
`IndexError`, or the `writerow` raising at call `limit + 1`) is caught by the
outer `except` with NO cleanup: the `with` block closes and flushes the file,
so the rows already written remain on disk — a zero-byte file when the very
first write fails, just the title row for the out-of-range read, and the
first `limit` output rows for an I/O error mid-write. -/
def writePhase (s : Sheet) (hdr : Nat) (limit : Option Nat) (path : String) :
    PyResult × Option (List (List String)) :=
  match limit with
  | some 0 => (.returnedNone .ioErrorOnWrite, some [])
  | some (m + 1) =>
    if 5 < s.nrows then
      if m + 1 < (outputRows s hdr).length then
        (.returnedNone .ioErrorOnWrite, some ((outputRows s hdr).take (m + 1)))
      else (.returnedPath path, some (outputRows s hdr))
    else (.returnedNone .rowOutOfRange, some [trimRow s 0])
  | none =>
    if 5 < s.nrows then (.returnedPath path, some (outputRows s hdr))
    else (.returnedNone .rowOutOfRange, some [trimRow s 0])

/-- One call of `format_gilts_csv`, paired with the file contents (at the
field level) left at the output path afterwards; `none` means no file was
created.  Control flow follows the source line by line:
1. `os.makedirs` (outside `try`): failure propagates as an exception.
2. input-existence check: missing file prints and returns `None`.
3. inside `try`: filename-date parsing (its failures are caught by the inner
   `except`, so it always yields a path), `xlrd.open_workbook` (failure
   caught, `None`), the header scan (not found prints and returns `None`
   before any file is opened), `open(csv_path, 'w')` (failure caught, `None`,
   no file created), then `writePhase` for the writes inside the `with`
   block. -/
def runFormatGiltsCsv (env : Env) : PyResult × Option (List (List String)) :=
  if !env.makedirsOk then (.raised, none)
  else if !env.inputExists then (.returnedNone .fileNotFound, none)
  else if !env.workbookOk then (.returnedNone .unreadableWorkbook, none)
  else
    match findHeaderRow env.sheet with
    | none => (.returnedNone .headerNotFound, none)
    | some hdr =>
      if !env.openWriteOk then (.returnedNone .writeOpenFailed, none)
      else writePhase env.sheet hdr env.writeLimit (csvPath env)

/-! ### The near-duplicate variant in `download_and_format_gilts.py`

`download_and_format_gilts.py` carries its own `format_gilts_csv` (lines
296-357 cover the transformation).  It is translated here independently,
statement by statement from that file, under the `DF` namespace, so that the
two variants can be compared.  The one intended difference is the writer
construction: `csv.writer(csvfile, quoting=csv.QUOTE_ALL)` instead of
`csv.writer(csvfile)`. -/

namespace DF

/-- Header scan of the `download_and_format_gilts.py` variant
(lines 296-304). -/
def findHeaderRow (s : Sheet) : Option Nat :=
  (List.range (min 15 s.nrows)).find? (fun i =>
    (trimRow s i).contains "ISIN Code" && (trimRow s i).contains "Redemption Date")

/-- Section-header scan of the variant (lines 310-325). -/
def sectionHeaders (s : Sheet) (hdr : Nat) : List Nat :=
  (List.range' (hdr + 1) (s.nrows - (hdr + 1))).filter (fun i =>
    let cv := strCell s i 0
    !(["Ultra-Short", "Short", "Medium", "Long"].contains cv) &&
      ((cv != "" && !(s.cell i 1).truthy && decide (hdr + 1 < i)) ||
        (hasIndexLinked cv && decide (hdr + 1 < i))))

/-- Data-loop filter of the variant (lines 344-357). -/
def keepRow (s : Sheet) (i : Nat) : Bool :=
  (trimRow s i).any (fun v => v != "") &&
    !(["Ultra-Short", "Short", "Medium", "Long"].contains ((trimRow s i).headD ""))

/-- Indices the variant's data loop writes. -/
def dataIndices (s : Sheet) (hdr : Nat) : List Nat :=
  (List.range' (hdr + 1) (s.nrows - (hdr + 1))).filter (DF.keepRow s)

/-- The full row sequence the variant hands to its `QUOTE_ALL` writer
(lines 330-357). -/
def outputRows (s : Sheet) (hdr : Nat) : List (List String) :=
  trimRow s 0 :: trimRow s 5 :: trimRow s hdr ::
    (DF.dataIndices s hdr).map (trimRow s)

end DF

/-! ### CSV serialization

The Python `csv.writer` defaults: delimiter `,`, quote char `"`, line
terminator CR LF; a quoted field doubles embedded quote chars.  Under
`QUOTE_MINIMAL` (the `format_gilts_csv.py` default) a field is quoted only
when it contains the delimiter, the quote char, or a CR/LF; under `QUOTE_ALL`
(the `download_and_format_gilts.py` variant) every field is quoted. -/

/-- Does `QUOTE_MINIMAL` have to quote this field? -/
def needsQuote (f : String) : Bool :=
  f.data.any (fun c => c == ',' || c == '"' || c == '\n' || c == '\r')

/-- Double every embedded quote char, as a quoted CSV field requires. -/
def escQuotes : List Char → List Char
  | [] => []
  | c :: cs => if c == '"' then '"' :: '"' :: escQuotes cs else c :: escQuotes cs

/-- Render one field under the given policy (`quoteAll = true` for
`csv.QUOTE_ALL`, `false` for the default `QUOTE_MINIMAL`). -/
def renderField (quoteAll : Bool) (f : String) : String :=
  if quoteAll || needsQuote f then
    "\"" ++ String.mk (escQuotes f.data) ++ "\""
  else f

/-- Render one CSV record (comma-joined fields, CR LF terminated). -/
def renderRecord (quoteAll : Bool) (row : List String) : String :=
  String.intercalate "," (row.map (renderField quoteAll)) ++ "\r\n"

/-- The bytes of a whole CSV file under the given quoting policy. -/
def renderCsv (quoteAll : Bool) (rows : List (List String)) : String :=
  String.join (rows.map (renderRecord quoteAll))

/-- The bytes the `format_gilts_csv.py` writer (`csv.writer(csvfile)`,
default `QUOTE_MINIMAL`) puts on disk for a successful conversion. -/
def renderedOutput (s : Sheet) (hdr : Nat) : String :=
  renderCsv false (outputRows s hdr)

/-- The bytes the `download_and_format_gilts.py` writer
(`csv.writer(csvfile, quoting=csv.QUOTE_ALL)`) puts on disk. -/
def DF.renderedOutput (s : Sheet) (hdr : Nat) : String :=
  renderCsv true (DF.outputRows s hdr)

/-- The header-token condition of the scan, stated extensionally: some trimmed
cell of row `i` equals `"ISIN Code"` and some trimmed cell equals
`"Redemption Date"` (exact equality, not substring). -/
def headerTokensAt (s : Sheet) (i : Nat) : Prop :=
  (∃ j, j < s.ncols ∧ strCell s i j = "ISIN Code") ∧
    (∃ j, j < s.ncols ∧ strCell s i j = "Redemption Date")

instance (s : Sheet) (i : Nat) : Decidable (headerTokensAt s i) := by
  unfold headerTokensAt; infer_instance

/-! ### Concrete fixtures

Small concrete sheets and environments used by the counterexample and witness
theorems below. -/

/-- Build a sheet from a row list (missing cells read as empty, as xlrd
renders blank cells). -/
def mkSheet (rows : List (List Cell)) (nc : Nat) : Sheet :=
  ⟨rows.length, nc, fun i j => (((rows.get? i).getD []).get? j).getD Cell.blank⟩

/-- A row carrying both header tokens. -/
def tokensRow : List Cell := [Cell.ofString "ISIN Code", Cell.ofString "Redemption Date"]

/-- A one-row sheet whose single row is the header row: the header scan
succeeds at index 0, but the fixed read of row index 5 is out of range. -/
def sheetA : Sheet := mkSheet [tokensRow] 2

/-- A fully healthy environment around `sheetA`. -/
def envA : Env :=
  ⟨sheetA, "gilts_in_issue_01-02-2024.xls", "csv_exports", ⟨2025, 3, 4⟩,
    true, true, true, true, none⟩

/-- A sheet with no header tokens anywhere. -/
def sheetB : Sheet := mkSheet [[Cell.ofString "Gilts in Issue", Cell.blank]] 2

/-- A healthy environment around `sheetB` (conversion fails: no header). -/
def envB : Env :=
  ⟨sheetB, "gilts_in_issue_01-02-2024.xls", "csv_exports", ⟨2025, 3, 4⟩,
    true, true, true, true, none⟩

/-- A 21-row sheet whose only token row sits at index 20, outside the 15-row
scan window. -/
def sheetC : Sheet :=
  mkSheet (List.replicate 20 [Cell.ofString "x", Cell.blank] ++ [tokensRow]) 2

/-- A healthy environment around `sheetC`. -/
def envC : Env :=
  ⟨sheetC, "gilts_in_issue_01-02-2024.xls", "csv_exports", ⟨2025, 3, 4⟩,
    true, true, true, true, none⟩

/-- A representative successful conversion: title row, blank row, header row
at index 2, a data row, a group-label row, the totals row at index 5, and an
index-linked section-header row. -/
def sheetD : Sheet :=
  mkSheet
    [[Cell.ofString "Gilts in Issue", Cell.blank, Cell.blank],
     [Cell.blank, Cell.blank, Cell.blank],
     [Cell.ofString "ISIN Code", Cell.ofString "Redemption Date", Cell.ofString "Coupon"],
     [Cell.ofString "UK Treasury 2030", Cell.ofString "GB00ABC123", Cell.ofString "1.5"],
     [Cell.ofString "Short", Cell.blank, Cell.blank],
     [Cell.ofString "Total", Cell.ofString "123", Cell.blank],
     [Cell.ofString "Index-linked Gilts", Cell.blank, Cell.blank]]
    3

/-- A healthy environment around `sheetD`. -/
def envD : Env :=
  ⟨sheetD, "gilts_in_issue_05-03-2024.xls", "csv_exports", ⟨2025, 3, 4⟩,
    true, true, true, true, none⟩

/-- A sheet whose fixed totals position (row index 5) happens to hold a
group-label row: header at index 0, blank filler rows, and row 5 with first
cell `"Short"`. -/
def sheetE : Sheet :=
  mkSheet
    [tokensRow,
     [Cell.blank, Cell.blank],
     [Cell.blank, Cell.blank],
     [Cell.blank, Cell.blank],
     [Cell.blank, Cell.blank],
     [Cell.ofString "Short", Cell.blank]]
    2

/-- A healthy environment around `sheetE`. -/
def envE : Env :=
  ⟨sheetE, "gilts_in_issue_01-02-2024.xls", "csv_exports", ⟨2025, 3, 4⟩,
    true, true, true, true, none⟩

/-- A sheet with a group-label row (`"Short"`, blank second cell) strictly
after `header + 1`: header at index 0, data rows, the label row at index 2,
and enough rows for the conversion to succeed. -/
def sheetG : Sheet :=
  mkSheet
    [tokensRow,
     [Cell.ofString "UK Treasury 2030", Cell.ofString "GB00ABC123"],
     [Cell.ofString "Short", Cell.blank],
     [Cell.ofString "UK Treasury 2035", Cell.ofString "GB00DEF456"],
     [Cell.blank, Cell.blank],
     [Cell.ofString "Total", Cell.ofString "123"]]
    2

/-- A healthy environment around `sheetG`. -/
def envG : Env :=
  ⟨sheetG, "gilts_in_issue_01-02-2024.xls", "csv_exports", ⟨2025, 3, 4⟩,
    true, true, true, true, none⟩

/-- A sheet with a genuine section-header row: header at index 0, a data row,
then `"Index-linked Gilts"` with a blank second cell at index 2. -/
def sheetH : Sheet :=
  mkSheet
    [tokensRow,
     [Cell.ofString "UK Treasury 2030", Cell.ofString "GB00ABC123"],
     [Cell.ofString "Index-linked Gilts", Cell.blank]]
    2

/-- An environment whose output directory cannot be created: `os.makedirs`
raises before the `try:` block is entered. -/
def envI : Env :=
  ⟨sheetD, "gilts_in_issue_05-03-2024.xls", "csv_exports", ⟨2025, 3, 4⟩,
    false, true, true, true, none⟩

/-- An environment around `sheetD` whose third `writerow` call raises an I/O
error: two output rows are flushed before the failure. -/
def envJ : Env :=
  ⟨sheetD, "gilts_in_issue_05-03-2024.xls", "csv_exports", ⟨2025, 3, 4⟩,
    true, true, true, true, some 2⟩

/-! ### Helper lemmas -/

/-- `find?` over `List.range n` returns exactly the least index below `n`
satisfying the predicate. -/
theorem find?_range_eq_some_iff {p : Nat → Bool} {n : Nat} : ∀ i,
    (List.range n).find? p = some i ↔
      i < n ∧ p i = true ∧ ∀ k, k < i → p k = false := by
  induction n with
  | zero => simp
  | succ m ih =>
    intro i
    rw [List.range_succ, List.find?_append]
    cases hm : (List.range m).find? p with
    | some j =>
      obtain ⟨hjm, hpj, hminj⟩ := (ih j).mp hm
      simp only [Option.or_some, Option.some.injEq]
      constructor
      · rintro rfl
        exact ⟨Nat.lt_succ_of_lt hjm, hpj, hminj⟩
      · rintro ⟨_, hpi, hmini⟩
        rcases Nat.lt_trichotomy j i with h | h | h
        · rw [hmini j h] at hpj; exact absurd hpj (by simp)
        · exact h
        · rw [hminj i h] at hpi; exact absurd hpi (by simp)
    | none =>
      have hnone : ∀ k, k < m → p k = false := by
        intro k hk
        have := List.find?_eq_none.mp hm k (List.mem_range.mpr hk)
        simpa using this
      simp only [Option.none_or, List.find?_singleton]
      by_cases hpm : p m = true
      · rw [if_pos hpm]
        simp only [Option.some.injEq]
        constructor
        · rintro rfl
          exact ⟨Nat.lt_succ_self m, hpm, hnone⟩
        · rintro ⟨hin, hpi, _⟩
          rcases Nat.lt_succ_iff_lt_or_eq.mp hin with h | h
          · rw [hnone i h] at hpi; exact absurd hpi (by simp)
          · exact h.symm
      · rw [if_neg hpm]
        constructor
        · intro h; exact absurd h (by simp)
        · rintro ⟨hin, hpi, _⟩
          rcases Nat.lt_succ_iff_lt_or_eq.mp hin with h | h
          · rw [hnone i h] at hpi; exact absurd hpi (by simp)
          · subst h; exact absurd hpi hpm

/-- `find?` over `List.range n` finds nothing exactly when no index below `n`
satisfies the predicate. -/
theorem find?_range_eq_none_iff {p : Nat → Bool} {n : Nat} :
    (List.range n).find? p = none ↔ ∀ k, k < n → p k = false := by
  rw [List.find?_eq_none]
  constructor
  · intro h k hk
    simpa using h k (List.mem_range.mpr hk)
  · intro h x hx
    simp [h x (List.mem_range.mp hx)]

/-- The Bool-level token test of the scan agrees with the extensional
condition `headerTokensAt`. -/
theorem rowHasHeaderTokens_iff {s : Sheet} {i : Nat} :
    rowHasHeaderTokens s i = true ↔ headerTokensAt s i := by
  simp [rowHasHeaderTokens, headerTokensAt, trimRow, List.mem_map, List.mem_range]

/-- Characterization of the header scan's success. -/
theorem findHeaderRow_eq_some_iff {s : Sheet} {i : Nat} :
    findHeaderRow s = some i ↔
      i < min 15 s.nrows ∧ headerTokensAt s i ∧
        ∀ k, k < i → ¬ headerTokensAt s k := by
  unfold findHeaderRow
  rw [find?_range_eq_some_iff i]
  constructor
  · rintro ⟨h1, h2, h3⟩
    refine ⟨h1, rowHasHeaderTokens_iff.mp h2, fun k hk hc => ?_⟩
    have hbt := rowHasHeaderTokens_iff.mpr hc
    rw [h3 k hk] at hbt
    exact absurd hbt (by simp)
  · rintro ⟨h1, h2, h3⟩
    refine ⟨h1, rowHasHeaderTokens_iff.mpr h2, fun k hk => ?_⟩
    cases hrk : rowHasHeaderTokens s k with
    | false => rfl
    | true => exact absurd (rowHasHeaderTokens_iff.mp hrk) (h3 k hk)

/-- A found header index is inside the scan window and the sheet. -/
theorem findHeaderRow_lt {s : Sheet} {hdr : Nat} (h : findHeaderRow s = some hdr) :
    hdr < 15 ∧ hdr < s.nrows := by
  have hm := List.mem_range.mp (List.mem_of_find?_eq_some h)
  omega

/-- Membership in the data loop's kept-index list. -/
theorem mem_dataIndices_iff {s : Sheet} {hdr i : Nat} (hlt : hdr < s.nrows) :
    i ∈ dataIndices s hdr ↔ hdr < i ∧ i < s.nrows ∧ keepRow s i = true := by
  unfold dataIndices
  rw [List.mem_filter]
  simp only [List.mem_range']
  constructor
  · rintro ⟨⟨k, hk, hik⟩, hkeep⟩
    exact ⟨by omega, by omega, hkeep⟩
  · rintro ⟨h1, h2, h3⟩
    exact ⟨⟨i - (hdr + 1), by omega, by omega⟩, h3⟩

/-- Membership in the recorded section-header list, unfolded to the source's
condition: not a group label, and (trimmed first cell non-empty, raw second
cell falsy, index strictly beyond `hdr + 1`) or (first cell contains
`"Index-linked"`, index strictly beyond `hdr + 1`). -/
theorem mem_sectionHeaders_iff {s : Sheet} {hdr i : Nat} (hlt : hdr < s.nrows) :
    i ∈ sectionHeaders s hdr ↔
      i < s.nrows ∧ strCell s i 0 ∉ groupLabels ∧
        ((strCell s i 0 ≠ "" ∧ (s.cell i 1).truthy = false ∧ hdr + 1 < i) ∨
          (hasIndexLinked (strCell s i 0) = true ∧ hdr + 1 < i)) := by
  unfold sectionHeaders
  rw [List.mem_filter]
  simp only [List.mem_range', Bool.and_eq_true, Bool.or_eq_true, Bool.not_eq_true',
    bne_iff_ne, ne_eq, decide_eq_true_eq, Bool.not_eq_true]
  constructor
  · rintro ⟨⟨k, hk, hik⟩, hmem, hcond⟩
    refine ⟨by omega, by simpa using hmem, ?_⟩
    rcases hcond with ⟨⟨h1, h2⟩, h3⟩ | ⟨h1, h2⟩
    · exact Or.inl ⟨h1, by simpa using h2, h3⟩
    · exact Or.inr ⟨h1, h2⟩
  · rintro ⟨h1, h2, hcond⟩
    have hgt : hdr + 1 < i := by rcases hcond with ⟨_, _, h⟩ | ⟨_, h⟩ <;> exact h
    refine ⟨⟨i - (hdr + 1), by omega, by omega⟩, by simpa using h2, ?_⟩
    rcases hcond with ⟨ha, hb, hc⟩ | ⟨ha, hb⟩
    · exact Or.inl ⟨⟨ha, by simpa using hb⟩, hc⟩
    · exact Or.inr ⟨ha, hb⟩

/-- The kept data indices are strictly increasing (output preserves the
original row order). -/
theorem dataIndices_sorted (s : Sheet) (hdr : Nat) :
    List.Pairwise (· < ·) (dataIndices s hdr) :=
  (List.pairwise_lt_range' (hdr + 1) (s.nrows - (hdr + 1))).filter _

/-- The recorded section-header indices are strictly increasing. -/
theorem sectionHeaders_sorted (s : Sheet) (hdr : Nat) :
    List.Pairwise (· < ·) (sectionHeaders s hdr) :=
  (List.pairwise_lt_range' (hdr + 1) (s.nrows - (hdr + 1))).filter _

/-- Every trimmed row has exactly `ncols` fields. -/
theorem trimRow_length (s : Sheet) (i : Nat) : (trimRow s i).length = s.ncols := by
  simp [trimRow]

/-- With at least one column, the first entry of the trimmed row is the
trimmed first cell. -/
theorem trimRow_headD {s : Sheet} {i : Nat} (h : 0 < s.ncols) :
    (trimRow s i).headD "" = strCell s i 0 := by
  unfold trimRow
  cases hnc : s.ncols with
  | zero => omega
  | succ k => simp [List.range_succ_eq_map]

/-- A found header row forces at least one column (both tokens must occur). -/
theorem findHeaderRow_ncols_pos {s : Sheet} {hdr : Nat}
    (h : findHeaderRow s = some hdr) : 0 < s.ncols := by
  obtain ⟨_, ⟨⟨j, hj, _⟩, _⟩, _⟩ := findHeaderRow_eq_some_iff.mp h
  omega

/-- A row containing the `"Index-linked"` substring is not the empty string. -/
theorem hasIndexLinked_ne_empty {cv : String} (h : hasIndexLinked cv = true) :
    cv ≠ "" := by
  intro heq
  rw [heq] at h
  exact absurd h (by decide)

/-- The data-loop filter rejects exactly the all-blank rows and the
group-label rows. -/
theorem keepRow_false_of (s : Sheet) (i : Nat) (hnc : 0 < s.ncols)
    (hcond : strCell s i 0 ∈ groupLabels ∨ ∀ j, j < s.ncols → strCell s i j = "") :
    keepRow s i = false := by
  unfold keepRow
  rcases hcond with hg | he
  · rw [trimRow_headD hnc]
    have hc : groupLabels.contains (strCell s i 0) = true := by simpa using hg
    rw [hc]
    simp
  · have ha : (trimRow s i).any (fun v => v != "") = false := by
      rw [List.any_eq_false]
      intro v hv
      simp only [trimRow, List.mem_map, List.mem_range] at hv
      obtain ⟨j, hj, rfl⟩ := hv
      simp [he j hj]
    rw [ha]
    simp

/-- The data-loop filter keeps a row whose trimmed first cell is non-empty
and not a group label. -/
theorem keepRow_true_of (s : Sheet) (i : Nat) (hnc : 0 < s.ncols)
    (hne : strCell s i 0 ≠ "") (hng : strCell s i 0 ∉ groupLabels) :
    keepRow s i = true := by
  unfold keepRow
  rw [trimRow_headD hnc]
  have hc : groupLabels.contains (strCell s i 0) = false := by
    simpa using hng
  rw [hc]
  have ha : (trimRow s i).any (fun v => v != "") = true := by
    rw [List.any_eq_true]
    refine ⟨strCell s i 0, ?_, by simpa using hne⟩
    simp only [trimRow, List.mem_map, List.mem_range]
    exact ⟨0, hnc, rfl⟩
  rw [ha]
  rfl

/-- When the filename date parses, the derived CSV filename ignores the
clock. -/
theorem csvFilename_today_indep {fn : String} (t1 t2 : SimpleDate)
    (h : (parseDdMmYyyy (datePart fn)).isSome = true) :
    csvFilename fn t1 = csvFilename fn t2 := by
  unfold csvFilename
  cases hp : parseDdMmYyyy (datePart fn) with
  | none => rw [hp] at h; simp at h
  | some d => rfl

/-- The output always has the three fixed rows, so its length exceeds 2. -/
theorem outputRows_length_pos (s : Sheet) (hdr : Nat) :
    2 < (outputRows s hdr).length := by
  simp [outputRows]

/-- The write phase never propagates an exception. -/
theorem writePhase_ne_raised (s : Sheet) (hdr : Nat) (lim : Option Nat)
    (path : String) : (writePhase s hdr lim path).1 ≠ .raised := by
  unfold writePhase
  cases lim with
  | none => by_cases h5 : 5 < s.nrows <;> simp [h5]
  | some m =>
    cases m with
    | zero => simp
    | succ k =>
      by_cases h5 : 5 < s.nrows <;>
        by_cases hk : k + 1 < (outputRows s hdr).length <;> simp [h5, hk]

/-- Any failure of the write phase leaves the file holding a strictly-partial
prefix of the intended output rows: the empty prefix when the very first
write raises, the title row alone for the out-of-range row-5 read, and the
rows already written for an I/O error mid-write. -/
theorem writePhase_failure {s : Sheet} {hdr : Nat} {lim : Option Nat}
    {path : String} {err : ConvErr}
    (h : (writePhase s hdr lim path).1 = .returnedNone err) :
    ∃ k, k < (outputRows s hdr).length ∧
      (writePhase s hdr lim path).2 = some ((outputRows s hdr).take k) := by
  have hlen := outputRows_length_pos s hdr
  cases lim with
  | none =>
    by_cases h5 : 5 < s.nrows
    · have hwp : writePhase s hdr none path =
          (.returnedPath path, some (outputRows s hdr)) := by
        unfold writePhase; simp [h5]
      rw [hwp] at h; simp at h
    · have hwp : writePhase s hdr none path =
          (.returnedNone .rowOutOfRange, some [trimRow s 0]) := by
        unfold writePhase; simp [h5]
      rw [hwp]
      exact ⟨1, by omega, by simp [outputRows]⟩
  | some m =>
    cases m with
    | zero =>
      have hwp : writePhase s hdr (some 0) path =
          (.returnedNone .ioErrorOnWrite, some []) := by
        unfold writePhase; simp
      rw [hwp]
      exact ⟨0, by omega, by simp⟩
    | succ k =>
      by_cases h5 : 5 < s.nrows
      · by_cases hk : k + 1 < (outputRows s hdr).length
        · have hwp : writePhase s hdr (some (k + 1)) path =
              (.returnedNone .ioErrorOnWrite,
                some ((outputRows s hdr).take (k + 1))) := by
            unfold writePhase; simp [h5, hk]
          rw [hwp]
          exact ⟨k + 1, hk, rfl⟩
        · have hwp : writePhase s hdr (some (k + 1)) path =
              (.returnedPath path, some (outputRows s hdr)) := by
            unfold writePhase; simp [h5, hk]
          rw [hwp] at h; simp at h
      · have hwp : writePhase s hdr (some (k + 1)) path =
            (.returnedNone .rowOutOfRange, some [trimRow s 0]) := by
          unfold writePhase; simp [h5]
        rw [hwp]
        exact ⟨1, by omega, by simp [outputRows]⟩

/-- The write phase succeeds exactly with row 5 in range and the whole output
written. -/
theorem writePhase_success {s : Sheet} {hdr : Nat} {lim : Option Nat}
    {path p : String} {f : Option (List (List String))}
    (h : writePhase s hdr lim path = (.returnedPath p, f)) :
    5 < s.nrows ∧ p = path ∧ f = some (outputRows s hdr) := by
  cases lim with
  | none =>
    by_cases h5 : 5 < s.nrows
    · have hwp : writePhase s hdr none path =
          (.returnedPath path, some (outputRows s hdr)) := by
        unfold writePhase; simp [h5]
      rw [hwp] at h
      obtain ⟨h1, h2⟩ := Prod.mk.injEq .. ▸ h
      exact ⟨h5, by simp_all, by simp_all⟩
    · have hwp : writePhase s hdr none path =
          (.returnedNone .rowOutOfRange, some [trimRow s 0]) := by
        unfold writePhase; simp [h5]
      rw [hwp] at h; simp at h
  | some m =>
    cases m with
    | zero =>
      have hwp : writePhase s hdr (some 0) path =
          (.returnedNone .ioErrorOnWrite, some []) := by
        unfold writePhase; simp
      rw [hwp] at h; simp at h
    | succ k =>
      by_cases h5 : 5 < s.nrows
      · by_cases hk : k + 1 < (outputRows s hdr).length
        · have hwp : writePhase s hdr (some (k + 1)) path =
              (.returnedNone .ioErrorOnWrite,
                some ((outputRows s hdr).take (k + 1))) := by
            unfold writePhase; simp [h5, hk]
          rw [hwp] at h; simp at h
        · have hwp : writePhase s hdr (some (k + 1)) path =
              (.returnedPath path, some (outputRows s hdr)) := by
            unfold writePhase; simp [h5, hk]
          rw [hwp] at h
          obtain ⟨h1, h2⟩ := Prod.mk.injEq .. ▸ h
          exact ⟨h5, by simp_all, by simp_all⟩
      · have hwp : writePhase s hdr (some (k + 1)) path =
            (.returnedNone .rowOutOfRange, some [trimRow s 0]) := by
          unfold writePhase; simp [h5]
        rw [hwp] at h; simp at h

/-- Master inversion: one call of `format_gilts_csv` lands in exactly one of
the source's terminal branches — an uncaught `makedirs` exception, one of the
four pre-write failures (each leaving no file), or the write phase. -/
theorem run_inv (env : Env) :
    (env.makedirsOk = false ∧ runFormatGiltsCsv env = (.raised, none)) ∨
    (env.makedirsOk = true ∧ env.inputExists = false ∧
      runFormatGiltsCsv env = (.returnedNone .fileNotFound, none)) ∨
    (env.makedirsOk = true ∧ env.inputExists = true ∧ env.workbookOk = false ∧
      runFormatGiltsCsv env = (.returnedNone .unreadableWorkbook, none)) ∨
    (env.makedirsOk = true ∧ env.inputExists = true ∧ env.workbookOk = true ∧
      findHeaderRow env.sheet = none ∧
      runFormatGiltsCsv env = (.returnedNone .headerNotFound, none)) ∨
    (∃ hdr, env.makedirsOk = true ∧ env.inputExists = true ∧
      env.workbookOk = true ∧ findHeaderRow env.sheet = some hdr ∧
      env.openWriteOk = false ∧
      runFormatGiltsCsv env = (.returnedNone .writeOpenFailed, none)) ∨
    (∃ hdr, env.makedirsOk = true ∧ env.inputExists = true ∧
      env.workbookOk = true ∧ findHeaderRow env.sheet = some hdr ∧
      env.openWriteOk = true ∧
      runFormatGiltsCsv env =
        writePhase env.sheet hdr env.writeLimit (csvPath env)) := by
  cases hmk : env.makedirsOk
  · exact Or.inl ⟨rfl, by unfold runFormatGiltsCsv; simp [hmk]⟩
  · cases hin : env.inputExists
    · exact Or.inr (Or.inl ⟨rfl, rfl, by unfold runFormatGiltsCsv; simp [hmk, hin]⟩)
    · cases hwb : env.workbookOk
      · exact Or.inr (Or.inr (Or.inl
          ⟨rfl, rfl, rfl, by unfold runFormatGiltsCsv; simp [hmk, hin, hwb]⟩))
      · cases hh : findHeaderRow env.sheet with
        | none =>
          exact Or.inr (Or.inr (Or.inr (Or.inl ⟨rfl, rfl, rfl, rfl,
            by unfold runFormatGiltsCsv; simp [hmk, hin, hwb, hh]⟩)))
        | some hdr =>
          cases hop : env.openWriteOk
          · exact Or.inr (Or.inr (Or.inr (Or.inr (Or.inl ⟨hdr, rfl, rfl, rfl, rfl,
              rfl, by unfold runFormatGiltsCsv; simp [hmk, hin, hwb, hh, hop]⟩))))
          · exact Or.inr (Or.inr (Or.inr (Or.inr (Or.inr ⟨hdr, rfl, rfl, rfl, rfl,
              rfl, by unfold runFormatGiltsCsv; simp [hmk, hin, hwb, hh, hop]⟩))))

/-- Inversion of a successful run: every flag held, a header row was found,
row index 5 was in range, and the file holds exactly `outputRows`. -/
theorem run_success_inv {env : Env} {p : String} {f : Option (List (List String))}
    (h : runFormatGiltsCsv env = (.returnedPath p, f)) :
    ∃ hdr, findHeaderRow env.sheet = some hdr ∧ 5 < env.sheet.nrows ∧
      p = csvPath env ∧ f = some (outputRows env.sheet hdr) := by
  rcases run_inv env with ⟨_, he⟩ | ⟨_, _, he⟩ | ⟨_, _, _, he⟩ | ⟨_, _, _, _, he⟩ |
      ⟨hdr, _, _, _, _, _, he⟩ | ⟨hdr, _, _, _, hh, _, he⟩ <;> rw [he] at h
  · simp at h
  · simp at h
  · simp at h
  · simp at h
  · simp at h
  · obtain ⟨h5, hp, hf⟩ := writePhase_success h
    exact ⟨hdr, hh, h5, hp, hf⟩
theorem findHeaderRow_eq_none_iff {s : Sheet} :
    findHeaderRow s = none ↔ ∀ i, i < min 15 s.nrows → ¬ headerTokensAt s i := by
  unfold findHeaderRow
  rw [find?_range_eq_none_iff]
  constructor
  · intro h i hi hc
    have hbt := rowHasHeaderTokens_iff.mpr hc
    rw [h i hi] at hbt
    exact absurd hbt (by simp)
  · intro h k hk
    cases hrk : rowHasHeaderTokens s k with
    | false => rfl
    | true => exact absurd (rowHasHeaderTokens_iff.mp hrk) (h k hk)

/-! ### Claim theorems -/

/-- Claim C2 (confirmed): the header locator examines exactly the rows
`0 .. min(15, rowCount) - 1` in ascending order, trims every cell to a string
and tests exact membership (not substring) of both `"ISIN Code"` and
`"Redemption Date"`, and returns the first row index satisfying both; it is a
deterministic single pass — a pure function of the sheet whose result is
precisely the least satisfying index in the window, and `none` exactly when
no index in the window satisfies the test. -/
theorem C2_header_locator_characterization (s : Sheet) :
    (∀ i, findHeaderRow s = some i ↔
        i < min 15 s.nrows ∧ headerTokensAt s i ∧
          ∀ k, k < i → ¬ headerTokensAt s k) ∧
    (findHeaderRow s = none ↔
      ∀ i, i < min 15 s.nrows → ¬ headerTokensAt s i) :=
  ⟨fun _ => findHeaderRow_eq_some_iff, findHeaderRow_eq_none_iff⟩

/-- Claim C3 (confirmed): when no row in the scan window `0 .. min(15,
nrows) - 1` carries both header tokens (regardless of rows at index 15 or
beyond), the conversion returns the failure value with the header-not-found
message and leaves no output file at all. -/
theorem C3_no_header_in_window_fails_without_output (env : Env)
    (hmk : env.makedirsOk = true) (hin : env.inputExists = true)
    (hwb : env.workbookOk = true)
    (hno : ∀ i, i < min 15 env.sheet.nrows → ¬ headerTokensAt env.sheet i) :
    runFormatGiltsCsv env = (.returnedNone .headerNotFound, none) := by
  have hh : findHeaderRow env.sheet = none := findHeaderRow_eq_none_iff.mpr hno
  unfold runFormatGiltsCsv
  simp [hmk, hin, hwb, hh]

/-- Witness for C3 at the boundary from the claim: a 21-row sheet whose only
token row is at index 20 still fails with header-not-found and no file. -/
theorem C3_witness :
    headerTokensAt envC.sheet 20 ∧ envC.sheet.nrows = 21 ∧
      runFormatGiltsCsv envC = (.returnedNone .headerNotFound, none) :=
  ⟨by decide, by decide,
    C3_no_header_in_window_fails_without_output envC rfl rfl rfl (by decide)⟩

/-- Claim C4 (confirmed): every successful conversion writes input row 0
trimmed as output row 1, input row at the fixed index 5 trimmed as output
row 2, and the located header row trimmed as output row 3 — wherever the
header row was found. -/
theorem C4_fixed_output_rows (env : Env) (p : String)
    (f : Option (List (List String)))
    (h : runFormatGiltsCsv env = (.returnedPath p, f)) :
    ∃ hdr content, findHeaderRow env.sheet = some hdr ∧ f = some content ∧
      content[0]? = some (trimRow env.sheet 0) ∧
      content[1]? = some (trimRow env.sheet 5) ∧
      content[2]? = some (trimRow env.sheet hdr) := by
  obtain ⟨hdr, hh, h5, hp, hf⟩ := run_success_inv h
  refine ⟨hdr, outputRows env.sheet hdr, hh, hf, ?_, ?_, ?_⟩ <;> simp [outputRows]

/-- Witness for C4 on a concrete successful conversion (header at index 2). -/
theorem C4_witness :
    ∃ hdr content, findHeaderRow envD.sheet = some hdr ∧
      (some (outputRows envD.sheet 2) : Option (List (List String))) =
        some content ∧
      content[0]? = some (trimRow envD.sheet 0) ∧
      content[1]? = some (trimRow envD.sheet 5) ∧
      content[2]? = some (trimRow envD.sheet hdr) :=
  C4_fixed_output_rows envD (csvPath envD) (some (outputRows envD.sheet 2))
    (by decide)

/-- Claim C1 is falsified at a concrete input: a one-row sheet whose single
row carries the header tokens.  The header is found at index 0, the file is
opened and the trimmed title row written, then the fixed read of row index 5
raises `IndexError`; the call reports failure, yet a partial one-line CSV
remains at the output path. -/
theorem C1_counterexample :
    (runFormatGiltsCsv envA).1 = .returnedNone .rowOutOfRange ∧
      (runFormatGiltsCsv envA).2 = some [["ISIN Code", "Redemption Date"]] ∧
      (runFormatGiltsCsv envA).2 ≠ none :=
  ⟨by decide, by decide, by decide⟩

/-- Claim C1 (corrected): every conversion attempt that reports failure
either leaves no file at the output path (all failures before the output file
is opened: missing input, unreadable workbook, header not found, unwritable
output file) or — for the failures that occur after CSV writing has begun,
namely the out-of-range read of fixed row index 5 and an I/O error during
writing — leaves a truncated CSV holding a strictly proper prefix of the
intended output rows (zero-byte when the very first write fails, exactly the
trimmed title row for the row-5 read, the rows already written for a
mid-write I/O error); the source performs no cleanup of such a file. -/
theorem C1_amended_failure_file_state (env : Env) (err : ConvErr)
    (h : (runFormatGiltsCsv env).1 = .returnedNone err) :
    (runFormatGiltsCsv env).2 = none ∨
      (∃ hdr k, findHeaderRow env.sheet = some hdr ∧
        k < (outputRows env.sheet hdr).length ∧
        (runFormatGiltsCsv env).2 =
          some ((outputRows env.sheet hdr).take k)) := by
  rcases run_inv env with ⟨_, he⟩ | ⟨_, _, he⟩ | ⟨_, _, _, he⟩ | ⟨_, _, _, _, he⟩ |
      ⟨hdr, _, _, _, _, _, he⟩ | ⟨hdr, _, _, _, hh, _, he⟩
  · rw [he] at h; simp at h
  · rw [he]; exact Or.inl rfl
  · rw [he]; exact Or.inl rfl
  · rw [he]; exact Or.inl rfl
  · rw [he]; exact Or.inl rfl
  · rw [he] at h ⊢
    obtain ⟨k, hk, hf⟩ := writePhase_failure h
    exact Or.inr ⟨hdr, k, hh, hk, hf⟩

/-- Witness for the amended C1: a mid-write I/O error at the third `writerow`
call leaves the first two output rows on disk — a strictly-partial file. -/
theorem C1_witness :
    (runFormatGiltsCsv envJ).1 = .returnedNone .ioErrorOnWrite ∧
      ((runFormatGiltsCsv envJ).2 = none ∨
        (∃ hdr k, findHeaderRow envJ.sheet = some hdr ∧
          k < (outputRows envJ.sheet hdr).length ∧
          (runFormatGiltsCsv envJ).2 =
            some ((outputRows envJ.sheet hdr).take k))) :=
  ⟨by decide, C1_amended_failure_file_state envJ .ioErrorOnWrite (by decide)⟩

/-- Claim C5 is falsified at a concrete input: when the header row sits above
index 5, input row 5 is copied verbatim as the fixed output row 2 even if it
is a group-label row.  Here the header is at index 0 and row 5 trims to
`["Short", ""]`, yet that row's trimmed content appears as an output line. -/
theorem C5_counterexample :
    strCell sheetE 5 0 = "Short" ∧ findHeaderRow sheetE = some 0 ∧
      (runFormatGiltsCsv envE).2 =
        some [["ISIN Code", "Redemption Date"], ["Short", ""],
          ["ISIN Code", "Redemption Date"]] ∧
      trimRow sheetE 5 ∈ ((runFormatGiltsCsv envE).2.getD []) :=
  ⟨by decide, by decide, by decide, by decide⟩

/-- Claim C5 (corrected): a row after the header row whose first cell trims
to a group label, or all of whose cells trim to empty, is excluded by the
data-row writer — it contributes no line of the data portion — and the
group-label exclusion precedes the section-header test, so a group-label row
is also never recorded as a section header.  (The fixed totals row, output
row 2, still copies input row index 5 verbatim whatever its content, which is
the sole way such a row's content can appear in the output.) -/
theorem C5_amended_group_and_empty_rows_excluded (s : Sheet) (hdr i : Nat)
    (hh : findHeaderRow s = some hdr) (_hgt : hdr < i) (_hlt : i < s.nrows)
    (hcond : strCell s i 0 ∈ groupLabels ∨ ∀ j, j < s.ncols → strCell s i j = "") :
    i ∉ dataIndices s hdr ∧
      (strCell s i 0 ∈ groupLabels → i ∉ sectionHeaders s hdr) := by
  have hnr := (findHeaderRow_lt hh).2
  have hnc := findHeaderRow_ncols_pos hh
  constructor
  · intro hmem
    have hk := ((mem_dataIndices_iff hnr).mp hmem).2.2
    rw [keepRow_false_of s i hnc hcond] at hk
    exact absurd hk (by simp)
  · intro hg hmem
    exact ((mem_sectionHeaders_iff hnr).mp hmem).2.1 hg

/-- Witness for the amended C5: the `"Short"` row at index 5 of `sheetE` is
excluded from the data rows and never recorded as a section header. -/
theorem C5_witness :
    5 ∉ dataIndices sheetE 0 ∧
      (strCell sheetE 5 0 ∈ groupLabels → 5 ∉ sectionHeaders sheetE 0) :=
  C5_amended_group_and_empty_rows_excluded sheetE 0 5 (by decide) (by decide)
    (by decide) (Or.inl (by decide))

/-- Claim C6 is falsified at a concrete input: a row beyond `header + 1` with
a non-blank first cell (`"Short"`) and a blank second cell is a group-label
row, which the source skips BEFORE the section-header test — it is neither
retained in the output nor recorded in the section-headers list. -/
theorem C6_counterexample :
    findHeaderRow sheetG = some 0 ∧ 0 + 1 < 2 ∧
      strCell sheetG 2 0 = "Short" ∧ strCell sheetG 2 0 ≠ "" ∧
      (sheetG.cell 2 1).truthy = false ∧
      2 ∉ sectionHeaders sheetG 0 ∧ 2 ∉ dataIndices sheetG 0 ∧
      (runFormatGiltsCsv envG).2 =
        some [["ISIN Code", "Redemption Date"], ["Total", "123"],
          ["ISIN Code", "Redemption Date"], ["UK Treasury 2030", "GB00ABC123"],
          ["UK Treasury 2035", "GB00DEF456"], ["Total", "123"]] ∧
      trimRow sheetG 2 ∉ ((runFormatGiltsCsv envG).2.getD []) :=
  ⟨by decide, by decide, by decide, by decide, by decide, by decide, by decide,
    by decide, by decide⟩

/-- Claim C6 (corrected): every row beyond `headerRowIndex + 1` whose trimmed
first cell is NOT one of the four group labels and that either has a
non-blank first cell with a falsy raw second cell, or contains the substring
`"Index-linked"` in its first cell, is recorded in the section-headers list
and kept by the data-row writer — written exactly like a Data row (its
trimmed cells appear among the written data rows), with both lists in
ascending original order. -/
theorem C6_amended_section_rows_recorded_and_kept (s : Sheet) (hdr i : Nat)
    (hh : findHeaderRow s = some hdr) (hgt : hdr + 1 < i) (hlt : i < s.nrows)
    (hng : strCell s i 0 ∉ groupLabels)
    (hcond : (strCell s i 0 ≠ "" ∧ (s.cell i 1).truthy = false) ∨
      hasIndexLinked (strCell s i 0) = true) :
    i ∈ sectionHeaders s hdr ∧ i ∈ dataIndices s hdr ∧
      trimRow s i ∈ (dataIndices s hdr).map (trimRow s) ∧
      List.Pairwise (· < ·) (sectionHeaders s hdr) ∧
      List.Pairwise (· < ·) (dataIndices s hdr) := by
  have hnr := (findHeaderRow_lt hh).2
  have hnc := findHeaderRow_ncols_pos hh
  have hne : strCell s i 0 ≠ "" := by
    rcases hcond with ⟨h1, _⟩ | h1
    · exact h1
    · exact hasIndexLinked_ne_empty h1
  have hmemd : i ∈ dataIndices s hdr :=
    (mem_dataIndices_iff hnr).mpr ⟨by omega, hlt, keepRow_true_of s i hnc hne hng⟩
  refine ⟨?_, hmemd, List.mem_map_of_mem _ hmemd, sectionHeaders_sorted s hdr,
    dataIndices_sorted s hdr⟩
  refine (mem_sectionHeaders_iff hnr).mpr ⟨hlt, hng, ?_⟩
  rcases hcond with ⟨h1, h2⟩ | h1
  · exact Or.inl ⟨h1, h2, hgt⟩
  · exact Or.inr ⟨h1, hgt⟩

/-- Witness for the amended C6: the `"Index-linked Gilts"` row of `sheetH`
(blank second cell, index 2 beyond `header + 1`) is recorded and kept. -/
theorem C6_witness :
    2 ∈ sectionHeaders sheetH 0 ∧ 2 ∈ dataIndices sheetH 0 ∧
      trimRow sheetH 2 ∈ (dataIndices sheetH 0).map (trimRow sheetH) ∧
      List.Pairwise (· < ·) (sectionHeaders sheetH 0) ∧
      List.Pairwise (· < ·) (dataIndices sheetH 0) :=
  C6_amended_section_rows_recorded_and_kept sheetH 0 2 (by decide) (by decide)
    (by decide) (by decide) (Or.inl ⟨by decide, by decide⟩)

/-- Claim C7 (confirmed): the conversion is a deterministic function of the
input sheet and filename; in particular, when the filename carries a
parseable `DD-MM-YYYY` date, the whole result — output path, outcome and file
contents — is independent of the clock, so converting the same input twice
yields identical output.  (When filename parsing fails, only the date embedded
in the output filename follows the clock.) -/
theorem C7_clock_independent_when_filename_parses (s : Sheet)
    (fn outDir : String) (mk inp wb op : Bool) (lim : Option Nat)
    (t1 t2 : SimpleDate)
    (h : (parseDdMmYyyy (datePart fn)).isSome = true) :
    runFormatGiltsCsv ⟨s, fn, outDir, t1, mk, inp, wb, op, lim⟩ =
      runFormatGiltsCsv ⟨s, fn, outDir, t2, mk, inp, wb, op, lim⟩ := by
  have hcp : csvPath ⟨s, fn, outDir, t1, mk, inp, wb, op, lim⟩ =
      csvPath ⟨s, fn, outDir, t2, mk, inp, wb, op, lim⟩ := by
    show outDir ++ "/" ++ csvFilename fn t1 = outDir ++ "/" ++ csvFilename fn t2
    rw [csvFilename_today_indep t1 t2 h]
  unfold runFormatGiltsCsv
  rw [hcp]

/-- Witness for C7: the same sheet and parseable filename under two different
clocks produce the same result.  (The hypothesis check also pins the parser:
the 4-digit-year filename date parses.) -/
theorem C7_witness :
    runFormatGiltsCsv ⟨sheetD, "gilts_in_issue_05-03-2024.xls", "csv_exports",
        ⟨2030, 1, 1⟩, true, true, true, true, none⟩ =
      runFormatGiltsCsv ⟨sheetD, "gilts_in_issue_05-03-2024.xls", "csv_exports",
        ⟨2031, 12, 31⟩, true, true, true, true, none⟩ :=
  C7_clock_independent_when_filename_parses sheetD
    "gilts_in_issue_05-03-2024.xls" "csv_exports" true true true true none
    ⟨2030, 1, 1⟩ ⟨2031, 12, 31⟩ (by decide)

/-- Claim C8 (confirmed): the `format_gilts_csv` variant of
`download_and_format_gilts.py` (namespace `DF`) locates the same header row,
records the same section headers, keeps exactly the same rows in the same
order with the same trimmed cell values as the `format_gilts_csv.py` variant;
for every input their outputs agree as sequences of field values, and each
variant's on-disk bytes are the rendering of that SAME field-row sequence
under its own quoting policy (`QUOTE_ALL` for the `DF` variant, default
minimal quoting for `format_gilts_csv.py`) — so the two serialized files
differ only in the quoting policy applied. -/
theorem C8_variants_field_equivalent (s : Sheet) :
    DF.findHeaderRow s = findHeaderRow s ∧
      (∀ hdr, DF.sectionHeaders s hdr = sectionHeaders s hdr) ∧
      (∀ hdr, DF.dataIndices s hdr = dataIndices s hdr) ∧
      (∀ hdr, DF.outputRows s hdr = outputRows s hdr) ∧
      (∀ hdr, DF.renderedOutput s hdr = renderCsv true (outputRows s hdr)) ∧
      (∀ hdr, renderedOutput s hdr = renderCsv false (outputRows s hdr)) :=
  ⟨rfl, fun _ => rfl, fun _ => rfl, fun _ => rfl, fun _ => rfl, fun _ => rfl⟩

/-- Claim C9 is falsified at a concrete input: `os.makedirs` runs BEFORE the
`try:` block, so an uncreatable output directory propagates an exception to
the caller instead of returning the failure value. -/
theorem C9_counterexample :
    envI.makedirsOk = false ∧ runFormatGiltsCsv envI = (.raised, none) :=
  ⟨rfl, by decide⟩

/-- Claim C9 (corrected): whenever the output directory is creatable, no
exception reaches the caller, and each error kind surfaces as the failure
return value `None` accompanied by its printed, non-empty human-readable
message: a missing input file, an unreadable spreadsheet, a missing header
row, and an unwritable output file each yield the `returnedNone` outcome with
the corresponding `ConvErr` (and no file); the out-of-range row-5 read and a
mid-write I/O error likewise return `None`.  Only the `os.makedirs` failure,
which runs before the `try:` block, escapes as an exception (the
counterexample). -/
theorem C9_amended_errors_surface_as_none (env : Env)
    (hmk : env.makedirsOk = true) :
    (runFormatGiltsCsv env).1 ≠ .raised ∧
      (env.inputExists = false →
        runFormatGiltsCsv env = (.returnedNone .fileNotFound, none)) ∧
      (env.inputExists = true → env.workbookOk = false →
        runFormatGiltsCsv env = (.returnedNone .unreadableWorkbook, none)) ∧
      (env.inputExists = true → env.workbookOk = true →
        findHeaderRow env.sheet = none →
        runFormatGiltsCsv env = (.returnedNone .headerNotFound, none)) ∧
      (∀ hdr, env.inputExists = true → env.workbookOk = true →
        findHeaderRow env.sheet = some hdr → env.openWriteOk = false →
        runFormatGiltsCsv env = (.returnedNone .writeOpenFailed, none)) ∧
      (∀ hdr, env.inputExists = true → env.workbookOk = true →
        findHeaderRow env.sheet = some hdr → env.openWriteOk = true →
        env.sheet.nrows ≤ 5 → env.writeLimit ≠ some 0 →
        (runFormatGiltsCsv env).1 = .returnedNone .rowOutOfRange) ∧
      (∀ hdr k, env.inputExists = true → env.workbookOk = true →
        findHeaderRow env.sheet = some hdr → env.openWriteOk = true →
        env.writeLimit = some k →
        (k = 0 ∨ (5 < env.sheet.nrows ∧ k < (outputRows env.sheet hdr).length)) →
        (runFormatGiltsCsv env).1 = .returnedNone .ioErrorOnWrite) ∧
      (∀ err, (runFormatGiltsCsv env).1 = .returnedNone err →
        errMessage err ≠ "") := by
  refine ⟨?_, ?_, ?_, ?_, ?_, ?_, ?_, ?_⟩
  · rcases run_inv env with ⟨hf, _⟩ | ⟨_, _, he⟩ | ⟨_, _, _, he⟩ |
        ⟨_, _, _, _, he⟩ | ⟨hdr, _, _, _, _, _, he⟩ | ⟨hdr, _, _, _, _, _, he⟩
    · rw [hmk] at hf; simp at hf
    · rw [he]; simp
    · rw [he]; simp
    · rw [he]; simp
    · rw [he]; simp
    · rw [he]; exact writePhase_ne_raised _ _ _ _
  · intro hin
    unfold runFormatGiltsCsv
    simp [hmk, hin]
  · intro hin hwb
    unfold runFormatGiltsCsv
    simp [hmk, hin, hwb]
  · intro hin hwb hh
    unfold runFormatGiltsCsv
    simp [hmk, hin, hwb, hh]
  · intro hdr hin hwb hh hop
    unfold runFormatGiltsCsv
    simp [hmk, hin, hwb, hh, hop]
  · intro hdr hin hwb hh hop h5 hwl
    have hrun : runFormatGiltsCsv env =
        writePhase env.sheet hdr env.writeLimit (csvPath env) := by
      unfold runFormatGiltsCsv
      simp [hmk, hin, hwb, hh, hop]
    rw [hrun]
    unfold writePhase
    cases hl : env.writeLimit with
    | none => simp [show ¬ 5 < env.sheet.nrows by omega]
    | some m =>
      cases m with
      | zero => exact absurd hl hwl
      | succ k => simp [show ¬ 5 < env.sheet.nrows by omega]
  · intro hdr k hin hwb hh hop hl hcase
    have hrun : runFormatGiltsCsv env =
        writePhase env.sheet hdr env.writeLimit (csvPath env) := by
      unfold runFormatGiltsCsv
      simp [hmk, hin, hwb, hh, hop]
    rw [hrun, hl]
    unfold writePhase
    rcases hcase with rfl | ⟨h5, hk⟩
    · simp
    · cases k with
      | zero => simp
      | succ j => simp [h5, hk]
  · intro err _
    cases err <;> simp [errMessage]

/-- Witness for the amended C9: with a creatable output directory, a
header-not-found failure is the returned failure value with its message —
not an exception. -/
theorem C9_witness :
    (runFormatGiltsCsv envB).1 ≠ .raised ∧
      runFormatGiltsCsv envB = (.returnedNone .headerNotFound, none) ∧
      errMessage .headerNotFound ≠ "" :=
  ⟨(C9_amended_errors_surface_as_none envB rfl).1,
    (C9_amended_errors_surface_as_none envB rfl).2.2.2.1 rfl rfl (by decide),
    (C9_amended_errors_surface_as_none envB rfl).2.2.2.2.2.2.2 .headerNotFound
      (by decide)⟩

/-- Claim C10 (confirmed): every row of a successfully written output CSV has
exactly `ncols` fields — the three fixed header rows and every retained data
row are built by iterating the column indices `0 .. ncols - 1`, so the output
is rectangular even for ragged inputs. -/
theorem C10_output_is_rectangular (env : Env) (p : String)
    (c : List (List String))
    (h : runFormatGiltsCsv env = (.returnedPath p, some c)) :
    ∀ r, r ∈ c → r.length = env.sheet.ncols := by
  obtain ⟨hdr, hh, h5, hp, hf⟩ := run_success_inv h
  have hc : c = outputRows env.sheet hdr := by injection hf
  subst hc
  intro r hr
  simp only [outputRows, List.mem_cons, List.mem_map] at hr
  rcases hr with rfl | rfl | rfl | ⟨j, _, rfl⟩ <;> exact trimRow_length _ _

/-- Witness for C10: a concrete retained data row of `sheetD`'s output has
the sheet's column count. -/
theorem C10_witness : (trimRow envD.sheet 3).length = envD.sheet.ncols :=
  C10_output_is_rectangular envD (csvPath envD) (outputRows envD.sheet 2)
    (by decide) (trimRow envD.sheet 3) (by decide)
